import Mathlib

/-!
Verification of the UQIFeed backend's Nutrition Target & Comparison Engine
and its user model.

The nutrition engine (target calculator, food-entry aggregator, comparison
engine, report builder, advice generator) is described by the specification
but its implementation files are not among the provided sources; those
components are modelled here directly from the specification's words, as
marked on each definition.  The user model (`User.create`, `User.update`)
is embedded from the JavaScript source `models/user.js`; the external
bcrypt library is abstracted as a `BcryptModel` parameter together with a
concrete instance used for evaluation.

All numeric quantities are modelled as rationals; timestamps and local
times are integers (minutes); a calendar date is the integer index of its
day.
-/

namespace Uqifeed

/-- Modelled from the spec: the nutrient keys of a `NutrientVector`
(calories, protein_g, carbs_g, fat_g, fiber_g, sugar_g, sodium_mg).  The
spec asks for an open key set; the engine's claims only concern these
seven keys, so a fixed enumeration embeds them. -/
inductive Nutrient
  | calories
  | protein
  | carbs
  | fat
  | fiber
  | sugar
  | sodium
deriving DecidableEq, Repr, Fintype

/-- The nutrient keys as a list, used for iteration in scoring and advice. -/
def Nutrient.all : List Nutrient :=
  [.calories, .protein, .carbs, .fat, .fiber, .sugar, .sodium]

/-- Modelled from the spec: a `NutrientVector` maps each nutrient key to a
quantity; elementwise arithmetic comes from the function-space instances. -/
abbrev NutrientVector := Nutrient → ℚ

/-- Modelled from the spec: a half-open time window (inclusive start,
exclusive end) in the user's local time, in minutes. -/
structure Window where
  lo : ℤ
  hi : ℤ
deriving DecidableEq, Repr

/-- Membership of a local time in a window: `lo ≤ t < hi`. -/
def Window.contains (w : Window) (t : ℤ) : Bool :=
  decide (w.lo ≤ t) && decide (t < w.hi)

/-- Modelled from the spec: a logged food entry with its cached total
nutrient vector and local consumption time. -/
structure FoodEntry where
  id : ℕ
  user_id : String
  consumed_at : ℤ
  total : NutrientVector

/-- Modelled from the spec: `aggregate(entries, window)` elementwise sums
the nutrient vectors of the entries whose `consumed_at` falls within the
window. -/
def aggregate (entries : List FoodEntry) (w : Window) : NutrientVector :=
  ((entries.filter (fun e => w.contains e.consumed_at)).map FoodEntry.total).sum

/-- Modelled from the spec: aggregation also reports the non-fatal
`EmptyWindowWarning` as a boolean flag alongside the vector; an empty
window never makes the result an error. -/
def aggregateWithWarning (entries : List FoodEntry) (w : Window) :
    NutrientVector × Bool :=
  (aggregate entries w,
   (entries.filter (fun e => w.contains e.consumed_at)).isEmpty)

/-- Modelled from the spec: a `NutritionTarget` with the macro and fiber
targets derived by the Target Calculator. -/
structure NutritionTarget where
  calories : ℚ
  protein_g : ℚ
  carbs_g : ℚ
  fat_g : ℚ
  fiber_g : ℚ
deriving DecidableEq, Repr

/-- Modelled from the spec: the target viewed as a `NutrientVector`
(nutrients without an explicit target map to 0). -/
def NutritionTarget.asVector (t : NutritionTarget) : NutrientVector
  | .calories => t.calories
  | .protein => t.protein_g
  | .carbs => t.carbs_g
  | .fat => t.fat_g
  | .fiber => t.fiber_g
  | .sugar => 0
  | .sodium => 0

/-- Named threshold: a nutrient is "over" when delta_pct exceeds +10%. -/
def overThreshold : ℚ := 1 / 10

/-- Named threshold: a nutrient is "under" when delta_pct is below −10%. -/
def underThreshold : ℚ := -(1 / 10)

/-- Named cap on the per-nutrient score penalty. -/
def maxPenalty : ℚ := 50

/-- Modelled from the spec: per-nutrient scoring weights, calories
weighted highest, micronutrients lowest (exact constants were not
recoverable from the sources; these are the documented choices). -/
def nutrientWeight : Nutrient → ℚ
  | .calories => 100
  | .protein => 60
  | .carbs => 40
  | .fat => 40
  | .fiber => 20
  | .sugar => 20
  | .sodium => 10

/-- Modelled from the spec: the relative deviation of an actual value from
a scaled target; 0 when both are 0, an infinite sentinel when the scaled
target is 0 and the actual is not, never a division error. -/
inductive DeltaPct
  | pct (value : ℚ)
  | infinite
deriving DecidableEq, Repr

/-- Qualitative per-nutrient comparison category. -/
inductive NutrientCategory
  | under
  | onTarget
  | over
deriving DecidableEq, Repr

/-- delta_pct = delta / scaled_target, with the spec's zero-target cases. -/
def deltaPctOf (actual scaledTarget : ℚ) : DeltaPct :=
  if scaledTarget = 0 then
    if actual = 0 then .pct 0 else .infinite
  else
    .pct ((actual - scaledTarget) / scaledTarget)

/-- Category from delta_pct: "under" below −10%, "over" above +10%,
otherwise "on-target"; the infinite sentinel counts as "over". -/
def categoryOf : DeltaPct → NutrientCategory
  | .infinite => .over
  | .pct q => if q < underThreshold then .under
              else if overThreshold < q then .over
              else .onTarget

/-- Per-nutrient penalty: min(50, |delta_pct| × weight); the infinite
sentinel takes the cap. -/
def penaltyOf (dp : DeltaPct) (w : ℚ) : ℚ :=
  match dp with
  | .infinite => maxPenalty
  | .pct q => min maxPenalty (|q| * w)

/-- One nutrient's row of a `Comparison`. -/
structure NutrientComparison where
  actual : ℚ
  target : ℚ
  delta : ℚ
  delta_pct : DeltaPct
  category : NutrientCategory
deriving DecidableEq, Repr

/-- Modelled from the spec: the result of comparing an actual vector
against a (scaled) target: per-nutrient rows and an overall score. -/
structure Comparison where
  items : Nutrient → NutrientComparison
  score : ℚ

/-- Build one nutrient's comparison row. -/
def compareItem (actual scaledTarget : ℚ) : NutrientComparison :=
  { actual := actual
    target := scaledTarget
    delta := actual - scaledTarget
    delta_pct := deltaPctOf actual scaledTarget
    category := categoryOf (deltaPctOf actual scaledTarget) }

/-- Overall score before clamping: 100 minus the weighted penalties. -/
def rawScore (items : Nutrient → NutrientComparison) : ℚ :=
  100 - (Nutrient.all.map
    (fun n => penaltyOf (items n).delta_pct (nutrientWeight n))).sum

/-- Modelled from the spec: `compare(actual, target, scale)`; target values
are multiplied by `scale`; fails only on a target with non-positive
calories (`InvalidTargetError`); the score is clamped to [0, 100]. -/
def compare (actual : NutrientVector) (target : NutritionTarget)
    (scale : ℚ) : Except String Comparison :=
  if target.calories ≤ 0 then .error "InvalidTargetError"
  else
    let items := fun n => compareItem (actual n) (target.asVector n * scale)
    .ok { items := items, score := max 0 (min 100 (rawScore items)) }

/-- Biological sex recorded in the profile. -/
inductive Gender
  | male
  | female
deriving DecidableEq, Repr

/-- Activity level, five discrete steps. -/
inductive ActivityLevel
  | sedentary
  | light
  | moderate
  | active
  | veryActive
deriving DecidableEq, Repr

/-- The user's goal. -/
inductive Goal
  | lose
  | maintain
  | gain
deriving DecidableEq, Repr

/-- Modelled from the spec: the biometric/activity/goal profile consumed
by the Target Calculator (birth date already resolved to an age). -/
structure UserProfile where
  gender : Gender
  age : ℚ
  height_cm : ℚ
  weight_kg : ℚ
  activity_level : ActivityLevel
  goal : Goal
deriving DecidableEq, Repr

/-- Modelled from the spec: five activity multipliers, monotonically
increasing with activity (standard values, as the original constants were
not recoverable). -/
def activityFactor : ActivityLevel → ℚ
  | .sedentary => 6 / 5
  | .light => 11 / 8
  | .moderate => 31 / 20
  | .active => 69 / 40
  | .veryActive => 19 / 10

/-- Modelled from the spec: fixed calorie deficit for "lose", surplus for
"gain", no change for "maintain". -/
def goalAdjust : Goal → ℚ
  | .lose => -500
  | .maintain => 0
  | .gain => 500

/-- Modelled from the spec: protein grams per kilogram of body weight,
goal-dependent, higher for the muscle-preserving "lose" intent. -/
def proteinPerKg : Goal → ℚ
  | .lose => 2
  | .maintain => 8 / 5
  | .gain => 9 / 5

/-- Modelled from the spec: fraction of target calories supplied by fat. -/
def fatCalorieShare : ℚ := 1 / 4

/-- Modelled from the spec: default fiber target in grams. -/
def fiberDefault : ℚ := 25

/-- Modelled from the spec: basal metabolic rate by the Mifflin–St Jeor
equation (the spec's suggested standard predictive equation). -/
def bmr (p : UserProfile) : ℚ :=
  10 * p.weight_kg + 25 / 4 * p.height_cm - 5 * p.age +
    (match p.gender with
     | .male => 5
     | .female => -161)

/-- Modelled from the spec: physiologically valid ranges for the required
profile fields; out-of-range profiles are rejected. -/
def validProfile (p : UserProfile) : Prop :=
  0 < p.age ∧ p.age < 130 ∧ 0 < p.weight_kg ∧ p.weight_kg ≤ 500 ∧
    0 < p.height_cm ∧ p.height_cm ≤ 300

instance (p : UserProfile) : Decidable (validProfile p) := by
  unfold validProfile
  infer_instance

/-- Modelled from the spec: `computeTarget(profile)` — BMR × activity
factor, goal adjustment, protein from body weight, fat as a share of
calories, carbs as the exact caloric remainder at 4 kcal/g; fails with
`InvalidProfileError` on out-of-range fields. -/
def targetOf (p : UserProfile) : NutritionTarget :=
  let cal := bmr p * activityFactor p.activity_level + goalAdjust p.goal
  let protein := proteinPerKg p.goal * p.weight_kg
  let fat := fatCalorieShare * cal / 9
  { calories := cal, protein_g := protein,
    carbs_g := (cal - 4 * protein - 9 * fat) / 4,
    fat_g := fat, fiber_g := fiberDefault }

/-- Modelled from the spec: the Target Calculator's entry point, rejecting
out-of-range profiles with `InvalidProfileError`. -/
def computeTarget (p : UserProfile) : Except String NutritionTarget :=
  if validProfile p then .ok (targetOf p)
  else .error "InvalidProfileError"

/-- Modelled from the spec: the local-time window of one calendar date
(1440 minutes per day). -/
def dayWindow (date : ℤ) : Window :=
  { lo := 1440 * date, hi := 1440 * (date + 1) }

/-- Modelled from the spec: a daily report — the day's aggregated vector,
its comparison against the (possibly prorated) target, the included entry
ids and a generation timestamp. -/
structure DailyReport where
  user_id : String
  report_date : ℤ
  totals : NutrientVector
  comparison : Comparison
  entry_ids : List ℕ
  generated_at : ℤ

/-- Modelled from the spec: `buildDailyReport` — aggregates the date's
entries and compares against the full target (scale 1) for past dates or
a time-elapsed-prorated target when the date is today; a pure function of
its inputs (the clock is passed in as `today`, `elapsedFrac`, `now`). -/
def buildDailyReport (uid : String) (date today : ℤ) (elapsedFrac : ℚ)
    (now : ℤ) (entries : List FoodEntry) (target : NutritionTarget) :
    Except String DailyReport :=
  let w := dayWindow date
  let included := entries.filter (fun e => w.contains e.consumed_at)
  let totals := aggregate entries w
  let scale := if date = today then elapsedFrac else 1
  match compare totals target scale with
  | .error e => .error e
  | .ok c =>
    .ok { user_id := uid, report_date := date, totals := totals,
          comparison := c, entry_ids := included.map FoodEntry.id,
          generated_at := now }

/-- Modelled from the spec: a weekly report — the week's partial flag
(`is_partial` in the spec, named `partialFlag` here), the average of the
available daily scores, the day-ordered score sequence and the best and
worst available scores. -/
structure WeeklyReport where
  user_id : String
  week_start : ℤ
  partialFlag : Bool
  avg_score : ℚ
  day_scores : List (Option ℚ)
  best_score : Option ℚ
  worst_score : Option ℚ

/-- Modelled from the spec: `buildWeeklyReport` over the seven day slots
of the week (`none` marks a `no_data` day); days without data are
excluded from the averaging denominator, not counted as zero-score; the
partial flag is set when fewer than 7 days have data. -/
def buildWeeklyReport (uid : String) (weekStart : ℤ)
    (dailys : List (Option DailyReport)) : WeeklyReport :=
  let scores := dailys.filterMap (fun o => o.map (fun r => r.comparison.score))
  let k := scores.length
  { user_id := uid
    week_start := weekStart
    partialFlag := decide (k < 7)
    avg_score := if k = 0 then 0 else scores.sum / (k : ℚ)
    day_scores := dailys.map (fun o => o.map (fun r => r.comparison.score))
    best_score := scores.max?
    worst_score := scores.min? }

/-- Modelled from the spec: the fixed enumerated set of advice
categories. -/
inductive AdviceCategory
  | REDUCE_CALORIES
  | INCREASE_CALORIES
  | INCREASE_PROTEIN
  | REDUCE_PROTEIN
  | REDUCE_CARBS
  | REDUCE_FAT
  | INCREASE_FIBER
  | REDUCE_SUGAR
  | REDUCE_SODIUM
  | BALANCED_GOOD_JOB
deriving DecidableEq, Repr

/-- Modelled from the spec: the deterministic rule table mapping one
nutrient's "over"/"under" category to an advice category; on-target
nutrients trigger nothing. -/
def adviceFor (n : Nutrient) (cat : NutrientCategory) :
    Option AdviceCategory :=
  match n, cat with
  | .calories, .over => some .REDUCE_CALORIES
  | .calories, .under => some .INCREASE_CALORIES
  | .protein, .under => some .INCREASE_PROTEIN
  | .protein, .over => some .REDUCE_PROTEIN
  | .carbs, .over => some .REDUCE_CARBS
  | .fat, .over => some .REDUCE_FAT
  | .fiber, .under => some .INCREASE_FIBER
  | .sugar, .over => some .REDUCE_SUGAR
  | .sodium, .over => some .REDUCE_SODIUM
  | _, _ => none

/-- Modelled from the spec: `classify(comparison)` collects the advice
categories triggered by over/under nutrients and falls back to the single
category `BALANCED_GOOD_JOB` when none triggered. -/
def classify (c : Comparison) : List AdviceCategory :=
  let advice := Nutrient.all.filterMap (fun n => adviceFor n (c.items n).category)
  if advice.isEmpty then [.BALANCED_GOOD_JOB] else advice

/-- A user document as stored in the `users` collection (the fields the
user model reads or writes; `none` marks an absent field). -/
structure UserDoc where
  name : Option String
  email : Option String
  username : Option String
  password : Option String
  createdAt : Option String
  updatedAt : Option String
deriving DecidableEq, Repr

/-- The external bcrypt library, abstracted: `hash` covers
`bcrypt.genSalt` + `bcrypt.hash`, `compare` is `bcrypt.compare`. -/
structure BcryptModel where
  hash : String → String
  compare : String → String → Bool

/-- A concrete instance of the bcrypt contract used for evaluation: the
hash is the input tagged with a bcrypt-style prefix, and comparison
checks the tag. -/
def bcryptModel : BcryptModel :=
  { hash := fun p => "$2b$10$" ++ p
    compare := fun entered hashed => hashed == "$2b$10$" ++ entered }

/-- JavaScript truthiness of an optional string field: present and
non-empty. -/
def truthy : Option String → Bool
  | some s => !(s == "")
  | none => false

/-- The password-hashing step shared by `User.create` and `User.update`:
`if (userData.password) { userData.password = await bcrypt.hash(...) }`.
An absent or empty (falsy) password is left untouched. -/
def hashPasswordField (B : BcryptModel) (d : UserDoc) : UserDoc :=
  match d.password with
  | some p => if p = "" then d else { d with password := some (B.hash p) }
  | none => d

/-- `User.findByUsername`: first stored document with the given
username. -/
def findByUsername (store : List (ℕ × UserDoc)) (u : String) :
    Option (ℕ × UserDoc) :=
  store.find? (fun pr => pr.2.username == some u)

/-- The uniqueness guard of `User.create`: the username check runs only
when the username field is truthy. -/
def createConflict (store : List (ℕ × UserDoc)) (d : UserDoc) : Bool :=
  match d.username with
  | some u => if u = "" then false else (findByUsername store u).isSome
  | none => false

/-- `User.create(userData)`: hashes a truthy password, stamps
`createdAt`/`updatedAt`, throws `'Username already exists'` when a truthy
username is already taken, otherwise appends the document to the
collection and returns it.  The first component is the collection after
the call (unchanged on failure, since the throw precedes the add). -/
def User.create (B : BcryptModel) (now : String)
    (store : List (ℕ × UserDoc)) (userData : UserDoc) :
    List (ℕ × UserDoc) × Except String UserDoc :=
  let d := hashPasswordField B userData
  let d := { d with createdAt := some now, updatedAt := some now }
  if createConflict store userData then
    (store, .error "Username already exists")
  else
    (store ++ [(store.length, d)], .ok d)

/-- Firestore `update` merge: fields present in the update replace the
stored ones, absent fields are kept. -/
def mergeDoc (old upd : UserDoc) : UserDoc :=
  { name := upd.name <|> old.name
    email := upd.email <|> old.email
    username := upd.username <|> old.username
    password := upd.password <|> old.password
    createdAt := upd.createdAt <|> old.createdAt
    updatedAt := upd.updatedAt <|> old.updatedAt }

/-- `User.update(id, userData)`: hashes a truthy password, stamps
`updatedAt`, merges into the stored document with that id and returns the
updated document; fails when no such document exists. -/
def User.update (B : BcryptModel) (now : String)
    (store : List (ℕ × UserDoc)) (id : ℕ) (userData : UserDoc) :
    List (ℕ × UserDoc) × Except String UserDoc :=
  match store.find? (fun pr => pr.1 == id) with
  | none => (store, .error "User not found")
  | some pr =>
    let d := hashPasswordField B userData
    let d := { d with updatedAt := some now }
    let merged := mergeDoc pr.2 d
    (store.map (fun q => if q.1 = id then (q.1, merged) else q), .ok merged)

/-- Comparing any value with itself yields a zero relative deviation. -/
theorem deltaPctOf_self (x : ℚ) : deltaPctOf x x = .pct 0 := by
  unfold deltaPctOf
  by_cases hx : x = 0
  · simp [hx]
  · simp [hx, sub_self, zero_div]

/-- A zero relative deviation is categorised as on-target. -/
theorem categoryOf_pct_zero : categoryOf (.pct 0) = .onTarget := by
  unfold categoryOf underThreshold overThreshold
  norm_num

/-- A zero relative deviation incurs no penalty. -/
theorem penaltyOf_pct_zero (w : ℚ) : penaltyOf (.pct 0) w = 0 := by
  unfold penaltyOf maxPenalty
  norm_num

/-- Claim C2: for every non-empty list of food entries and every window,
`aggregate` returns the same `NutrientVector` for every permutation of the
entries list (aggregation is order-independent). -/
theorem aggregate_perm_invariant (e₁ e₂ : List FoodEntry) (w : Window)
    (_hne : e₁ ≠ []) (hperm : e₁.Perm e₂) :
    aggregate e₁ w = aggregate e₂ w := by
  unfold aggregate
  exact ((hperm.filter _).map _).sum_eq

/-- Witness for C2 at a concrete two-entry list and its swap. -/
theorem aggregate_perm_invariant_witness :
    ([⟨0, "u", 5, fun _ => 1⟩, ⟨1, "u", 6, fun _ => 2⟩] : List FoodEntry) ≠ [] ∧
      aggregate [⟨0, "u", 5, fun _ => 1⟩, ⟨1, "u", 6, fun _ => 2⟩] ⟨0, 10⟩ =
        aggregate [⟨1, "u", 6, fun _ => 2⟩, ⟨0, "u", 5, fun _ => 1⟩] ⟨0, 10⟩ :=
  ⟨List.cons_ne_nil _ _,
   aggregate_perm_invariant _ _ _ (List.cons_ne_nil _ _)
     (List.Perm.swap _ _ _)⟩

/-- Claim C6: for every window, aggregation of an empty entry set returns
the zero nutrient vector and does not fail; the empty-window condition is
signalled only as a non-fatal warning flag, never as an error. -/
theorem aggregate_empty_zero (w : Window) :
    aggregate [] w = 0 ∧ aggregateWithWarning [] w = (0, true) := by
  constructor
  · rfl
  · rfl

/-- Claim C3: for every valid target (positive calories), comparing the
target's own vector against it at scale 1 yields delta_pct = 0 and
category "on-target" for every nutrient, and an overall score of 100. -/
theorem compare_target_with_itself (t : NutritionTarget)
    (h : 0 < t.calories) :
    ∃ c, compare t.asVector t 1 = .ok c ∧
      (∀ n, (c.items n).delta_pct = .pct 0 ∧
            (c.items n).category = .onTarget) ∧
      c.score = 100 := by
  have hne : ¬ t.calories ≤ 0 := not_le.mpr h
  unfold compare
  rw [if_neg hne]
  refine ⟨_, rfl, ?_, ?_⟩
  · intro n
    constructor
    · simp [compareItem, deltaPctOf_self]
    · simp [compareItem, deltaPctOf_self, categoryOf_pct_zero]
  · have hsum :
        (Nutrient.all.map (fun n =>
          penaltyOf (compareItem (t.asVector n) (t.asVector n * 1)).delta_pct
            (nutrientWeight n))).sum = 0 := by
      apply List.sum_eq_zero
      intro x hx
      rcases List.mem_map.mp hx with ⟨n, _, rfl⟩
      simp [compareItem, deltaPctOf_self, penaltyOf_pct_zero]
    show max 0 (min 100 (rawScore _)) = 100
    unfold rawScore
    rw [hsum]
    norm_num

/-- Witness for C3 at a concrete target. -/
theorem compare_target_with_itself_witness :
    (0 : ℚ) < (NutritionTarget.mk 2000 100 250 70 25).calories ∧
      ∃ c, compare (NutritionTarget.mk 2000 100 250 70 25).asVector
            (NutritionTarget.mk 2000 100 250 70 25) 1 = .ok c ∧
        (∀ n, (c.items n).delta_pct = .pct 0 ∧
              (c.items n).category = .onTarget) ∧
        c.score = 100 :=
  ⟨by norm_num,
   compare_target_with_itself (NutritionTarget.mk 2000 100 250 70 25)
     (by norm_num)⟩

/-- Claim C4: for every actual vector, valid target and scale, `compare`
returns a result (never a division error); per nutrient, a zero scaled
target with zero actual gives delta_pct 0, and a zero scaled target with
positive actual gives the represented infinite sentinel. -/
theorem compare_zero_scaled_target_safe (a : NutrientVector)
    (t : NutritionTarget) (s : ℚ) (h : 0 < t.calories) :
    ∃ c, compare a t s = .ok c ∧
      ∀ n, (t.asVector n * s = 0 → a n = 0 →
              (c.items n).delta_pct = .pct 0) ∧
           (t.asVector n * s = 0 → 0 < a n →
              (c.items n).delta_pct = .infinite) := by
  have hne : ¬ t.calories ≤ 0 := not_le.mpr h
  unfold compare
  rw [if_neg hne]
  refine ⟨_, rfl, ?_⟩
  intro n
  constructor
  · intro h0 ha
    simp [compareItem, deltaPctOf, h0, ha]
  · intro h0 ha
    have hane : a n ≠ 0 := ne_of_gt ha
    simp [compareItem, deltaPctOf, h0, hane]

/-- Witness for C4 at a concrete actual, target and zero scale. -/
theorem compare_zero_scaled_target_safe_witness :
    (0 : ℚ) < (NutritionTarget.mk 2000 100 250 70 25).calories ∧
      ∃ c, compare (fun _ => 5) (NutritionTarget.mk 2000 100 250 70 25) 0
             = .ok c ∧
        ∀ n, ((NutritionTarget.mk 2000 100 250 70 25).asVector n * 0 = 0 →
                (fun _ => (5 : ℚ)) n = 0 → (c.items n).delta_pct = .pct 0) ∧
             ((NutritionTarget.mk 2000 100 250 70 25).asVector n * 0 = 0 →
                0 < (fun _ => (5 : ℚ)) n →
                (c.items n).delta_pct = .infinite) :=
  ⟨by norm_num,
   compare_zero_scaled_target_safe (fun _ => 5)
     (NutritionTarget.mk 2000 100 250 70 25) 0 (by norm_num)⟩

/-- Claim C1: `buildDailyReport` is a deterministic function of its
inputs — two calls with identical entries and target (and the same clock
inputs) yield identical `DailyReport` values. -/
theorem buildDailyReport_deterministic (uid : String) (date today : ℤ)
    (elapsedFrac : ℚ) (now : ℤ) (target : NutritionTarget)
    (e₁ e₂ : List FoodEntry) (h : e₁ = e₂) :
    buildDailyReport uid date today elapsedFrac now e₁ target =
      buildDailyReport uid date today elapsedFrac now e₂ target := by
  rw [h]

/-- Witness for C1 at concrete inputs. -/
theorem buildDailyReport_deterministic_witness :
    ([] : List FoodEntry) = [] ∧
      buildDailyReport "u" 0 1 1 0 [] (NutritionTarget.mk 2000 100 250 70 25) =
        buildDailyReport "u" 0 1 1 0 []
          (NutritionTarget.mk 2000 100 250 70 25) :=
  ⟨rfl, buildDailyReport_deterministic "u" 0 1 1 0
    (NutritionTarget.mk 2000 100 250 70 25) [] [] rfl⟩

/-- The carbs-as-remainder derivation makes the macro calories sum exactly
to the calorie target. -/
theorem targetOf_macroSum (p : UserProfile) :
    (targetOf p).protein_g * 4 + (targetOf p).carbs_g * 4 +
      (targetOf p).fat_g * 9 = (targetOf p).calories := by
  simp only [targetOf]
  ring

/-- Claim C5: for every valid profile, the target returned by
`computeTarget` satisfies the macro-calorie consistency invariant:
protein_g·4 + carbs_g·4 + fat_g·9 lies within 5% of calories (here it is
exactly equal). -/
theorem computeTarget_macro_calorie_consistent (p : UserProfile)
    (h : validProfile p) :
    ∃ t, computeTarget p = .ok t ∧
      t.protein_g * 4 + t.carbs_g * 4 + t.fat_g * 9 = t.calories ∧
      |t.protein_g * 4 + t.carbs_g * 4 + t.fat_g * 9 - t.calories| ≤
        5 / 100 * |t.calories| := by
  refine ⟨targetOf p, ?_, targetOf_macroSum p, ?_⟩
  · unfold computeTarget
    rw [if_pos h]
  · rw [targetOf_macroSum p, sub_self, abs_zero]
    positivity

/-- Witness for C5 at the spec's scenario profile (female, age 30, 165 cm,
60 kg, moderate activity, maintain). -/
theorem computeTarget_macro_calorie_consistent_witness :
    validProfile (UserProfile.mk .female 30 165 60 .moderate .maintain) ∧
      ∃ t, computeTarget (UserProfile.mk .female 30 165 60 .moderate .maintain)
             = .ok t ∧
        t.protein_g * 4 + t.carbs_g * 4 + t.fat_g * 9 = t.calories ∧
        |t.protein_g * 4 + t.carbs_g * 4 + t.fat_g * 9 - t.calories| ≤
          5 / 100 * |t.calories| :=
  ⟨by decide,
   computeTarget_macro_calorie_consistent
     (UserProfile.mk .female 30 165 60 .moderate .maintain) (by decide)⟩

/-- A comparison row used by concrete report and advice examples. -/
def sampleComparison (s : ℚ) : Comparison :=
  { items := fun _ => compareItem 0 0, score := s }

/-- A concrete daily report used by concrete weekly-report examples. -/
def sampleDaily (s : ℚ) : DailyReport :=
  { user_id := "u", report_date := 0, totals := 0,
    comparison := sampleComparison s, entry_ids := [], generated_at := 0 }

/-- A concrete week with data on 3 of the 7 days. -/
def sampleWeek : List (Option DailyReport) :=
  [some (sampleDaily 80), none, some (sampleDaily 90), none,
   some (sampleDaily 100), none, none]

/-- Claim C7: for a week in which only k of the 7 days have daily-report
data (0 < k < 7), `buildWeeklyReport` flags the report as partial and
averages over exactly the k days with data (missing days are excluded
from the denominator, not counted as zero-score). -/
theorem buildWeeklyReport_partial_average (uid : String) (ws : ℤ)
    (dailys : List (Option DailyReport)) (_h7 : dailys.length = 7)
    (hk0 : 0 < (dailys.filterMap
      (fun o => o.map (fun r => r.comparison.score))).length)
    (hk7 : (dailys.filterMap
      (fun o => o.map (fun r => r.comparison.score))).length < 7) :
    (buildWeeklyReport uid ws dailys).partialFlag = true ∧
      (buildWeeklyReport uid ws dailys).avg_score =
        (dailys.filterMap (fun o => o.map (fun r => r.comparison.score))).sum /
          ((dailys.filterMap
            (fun o => o.map (fun r => r.comparison.score))).length : ℚ) := by
  constructor
  · simp only [buildWeeklyReport]
    simpa using hk7
  · simp only [buildWeeklyReport]
    rw [if_neg (Nat.pos_iff_ne_zero.mp hk0)]

/-- Witness for C7 at a concrete 3-of-7 week. -/
theorem buildWeeklyReport_partial_average_witness :
    sampleWeek.length = 7 ∧
      0 < (sampleWeek.filterMap
        (fun o => o.map (fun r => r.comparison.score))).length ∧
      (sampleWeek.filterMap
        (fun o => o.map (fun r => r.comparison.score))).length < 7 ∧
      (buildWeeklyReport "u" 0 sampleWeek).partialFlag = true ∧
      (buildWeeklyReport "u" 0 sampleWeek).avg_score =
        (sampleWeek.filterMap
          (fun o => o.map (fun r => r.comparison.score))).sum /
          ((sampleWeek.filterMap
            (fun o => o.map (fun r => r.comparison.score))).length : ℚ) :=
  ⟨rfl, by decide, by decide,
   (buildWeeklyReport_partial_average "u" 0 sampleWeek rfl (by decide)
     (by decide)).1,
   (buildWeeklyReport_partial_average "u" 0 sampleWeek rfl (by decide)
     (by decide)).2⟩

/-- On-target nutrients trigger no advice rule. -/
theorem adviceFor_onTarget (n : Nutrient) :
    adviceFor n .onTarget = none := by
  cases n <;> rfl

/-- Claim C8: for every comparison in which no nutrient is "over" or
"under", `classify` returns exactly the single advice category
`BALANCED_GOOD_JOB`. -/
theorem classify_balanced_good_job (c : Comparison)
    (h : ∀ n, (c.items n).category ≠ .over ∧ (c.items n).category ≠ .under) :
    classify c = [.BALANCED_GOOD_JOB] := by
  have hOn : ∀ n, (c.items n).category = .onTarget := by
    intro n
    rcases h n with ⟨ho, hu⟩
    cases hcat : (c.items n).category
    · exact absurd hcat hu
    · rfl
    · exact absurd hcat ho
  have hnone :
      Nutrient.all.filterMap (fun n => adviceFor n (c.items n).category)
        = [] := by
    simp [Nutrient.all, hOn, adviceFor_onTarget]
  simp [classify, hnone]

/-- Witness for C8 at a concrete all-on-target comparison. -/
theorem classify_balanced_good_job_witness :
    (∀ n, ((sampleComparison 100).items n).category ≠ .over ∧
          ((sampleComparison 100).items n).category ≠ .under) ∧
      classify (sampleComparison 100) = [.BALANCED_GOOD_JOB] := by
  have h : ∀ n, ((sampleComparison 100).items n).category ≠ .over ∧
      ((sampleComparison 100).items n).category ≠ .under := by
    intro n
    constructor <;>
      simp [sampleComparison, compareItem, deltaPctOf_self, categoryOf_pct_zero]
  exact ⟨h, classify_balanced_good_job (sampleComparison 100) h⟩

/-- bcrypt hashes are tagged, so a hash never equals its input. -/
theorem bcryptModel_hash_ne (q : String) : bcryptModel.hash q ≠ q := by
  intro h
  have hlen : ("$2b$10$" ++ q).length = q.length := congrArg String.length h
  rw [String.length_append] at hlen
  have h7 : "$2b$10$".length = 7 := rfl
  rw [h7] at hlen
  omega

/-- A bcrypt hash verifies against the password it was produced from. -/
theorem bcryptModel_compare_hash (q : String) :
    bcryptModel.compare q (bcryptModel.hash q) = true := by
  simp [bcryptModel]

/-- A stored user document used in concrete user-model examples. -/
def aliceDoc : UserDoc :=
  { name := some "Alice", email := some "alice@x", username := some "alice",
    password := some "$2b$10$old", createdAt := some "t0",
    updatedAt := some "t0" }

/-- A one-user collection used in concrete user-model examples. -/
def aliceStore : List (ℕ × UserDoc) := [(0, aliceDoc)]

/-- New user data with a non-empty password and a fresh username. -/
def bobDoc : UserDoc :=
  { name := some "Bob", email := some "bob@x", username := some "bob",
    password := some "secret1", createdAt := none, updatedAt := none }

/-- User data carrying an empty-string password field. -/
def emptyPwDoc : UserDoc :=
  { name := some "Eve", email := some "eve@x", username := none,
    password := some "", createdAt := none, updatedAt := none }

/-- Counterexample to C9 as stated: for user data whose password field is
the empty string, `User.create` stores the plaintext value unchanged (the
JavaScript truthiness guard `if (userData.password)` skips hashing), so
the stored password does not differ from the supplied plaintext. -/
theorem create_empty_password_stored_plaintext :
    emptyPwDoc.password = some "" ∧
      (User.create bcryptModel "t1" [] emptyPwDoc).2 =
        .ok { emptyPwDoc with
              createdAt := some "t1", updatedAt := some "t1" } ∧
      ({ emptyPwDoc with
         createdAt := some "t1", updatedAt := some "t1" } : UserDoc).password
        = emptyPwDoc.password :=
  ⟨rfl, rfl, rfl⟩

/-- Claim C9 (amended: for user data whose password field is a non-empty
string): `User.create` and `User.update` store the bcrypt hash of the
password, never the plaintext — the stored password differs from the
input and verifies under bcrypt comparison. -/
theorem user_password_hashed (B : BcryptModel)
    (hB1 : ∀ q, B.hash q ≠ q)
    (hB2 : ∀ q, B.compare q (B.hash q) = true)
    (now p : String) (store : List (ℕ × UserDoc)) (d : UserDoc) (id : ℕ)
    (hp : d.password = some p) (hpne : p ≠ "")
    (hnc : createConflict store d = false)
    (hid : (store.find? (fun pr => pr.1 == id)).isSome = true) :
    (∃ doc, (User.create B now store d).2 = .ok doc ∧
       doc.password = some (B.hash p) ∧ doc.password ≠ some p) ∧
    (∃ doc, (User.update B now store id d).2 = .ok doc ∧
       doc.password = some (B.hash p) ∧ doc.password ≠ some p) ∧
    B.compare p (B.hash p) = true := by
  have hhash : hashPasswordField B d = { d with password := some (B.hash p) } := by
    simp [hashPasswordField, hp, hpne]
  have hne : some (B.hash p) ≠ some p := by
    simp [hB1 p]
  refine ⟨?_, ?_, hB2 p⟩
  · refine ⟨{ hashPasswordField B d with
        createdAt := some now, updatedAt := some now }, ?_, ?_, ?_⟩
    · simp [User.create, hnc]
    · simp [hhash]
    · simp [hhash, hne]
  · obtain ⟨pr, hpr⟩ := Option.isSome_iff_exists.mp hid
    refine ⟨mergeDoc pr.2
        { hashPasswordField B d with updatedAt := some now }, ?_, ?_, ?_⟩
    · simp [User.update, hpr]
    · simp [mergeDoc, hhash]
    · simp [mergeDoc, hhash, hne]

/-- Witness for C9 (amended) at concrete user data and collection. -/
theorem user_password_hashed_witness :
    bobDoc.password = some "secret1" ∧ ("secret1" : String) ≠ "" ∧
      createConflict aliceStore bobDoc = false ∧
      (aliceStore.find? (fun pr => pr.1 == 0)).isSome = true ∧
      ((∃ doc, (User.create bcryptModel "t1" aliceStore bobDoc).2 = .ok doc ∧
          doc.password = some (bcryptModel.hash "secret1") ∧
          doc.password ≠ some "secret1") ∧
       (∃ doc, (User.update bcryptModel "t1" aliceStore 0 bobDoc).2 = .ok doc ∧
          doc.password = some (bcryptModel.hash "secret1") ∧
          doc.password ≠ some "secret1") ∧
       bcryptModel.compare "secret1" (bcryptModel.hash "secret1") = true) :=
  ⟨rfl, by decide, rfl, rfl,
   user_password_hashed bcryptModel bcryptModel_hash_ne bcryptModel_compare_hash
     "t1" "secret1" aliceStore bobDoc 0 rfl (by decide) rfl rfl⟩

/-- A stored user whose username field is the empty string. -/
def emptyNameUser : UserDoc :=
  { name := some "A", email := some "a@x", username := some "",
    password := none, createdAt := none, updatedAt := none }

/-- A collection holding the empty-username user. -/
def emptyNameStore : List (ℕ × UserDoc) := [(0, emptyNameUser)]

/-- New user data whose username equals the stored empty username. -/
def emptyNameNewDoc : UserDoc :=
  { name := some "B", email := some "b@x", username := some "",
    password := none, createdAt := none, updatedAt := none }

/-- Counterexample to C10 as stated: for user data whose username is the
empty string and matches an existing user's username, `User.create` does
not throw (the truthiness guard `if (userData.username)` skips the
uniqueness check) and appends a new document to the collection. -/
theorem create_duplicate_empty_username_not_rejected :
    emptyNameNewDoc.username = some "" ∧
      emptyNameUser.username = some "" ∧
      (findByUsername emptyNameStore "").isSome = true ∧
      (User.create bcryptModel "t1" emptyNameStore emptyNameNewDoc).2 =
        .ok { emptyNameNewDoc with
              createdAt := some "t1", updatedAt := some "t1" } ∧
      (User.create bcryptModel "t1" emptyNameStore emptyNameNewDoc).1.length =
        emptyNameStore.length + 1 :=
  ⟨rfl, rfl, rfl, rfl, rfl⟩

/-- Claim C10 (amended: for user data whose username is a non-empty
string): when the username matches an existing user's username,
`User.create` fails with 'Username already exists' and leaves the
collection unchanged. -/
theorem create_username_conflict_rejected (B : BcryptModel) (now : String)
    (store : List (ℕ × UserDoc)) (d : UserDoc) (u : String)
    (hu : d.username = some u) (hune : u ≠ "")
    (hex : (findByUsername store u).isSome = true) :
    User.create B now store d = (store, .error "Username already exists") := by
  have hc : createConflict store d = true := by
    simp [createConflict, hu, hune, hex]
  simp [User.create, hc]

/-- New user data duplicating the stored username "alice". -/
def aliceDup : UserDoc :=
  { name := some "A2", email := some "a2@x", username := some "alice",
    password := some "pw7", createdAt := none, updatedAt := none }

/-- Witness for C10 (amended) at a concrete duplicate username. -/
theorem create_username_conflict_rejected_witness :
    aliceDup.username = some "alice" ∧ ("alice" : String) ≠ "" ∧
      (findByUsername aliceStore "alice").isSome = true ∧
      User.create bcryptModel "t1" aliceStore aliceDup =
        (aliceStore, .error "Username already exists") :=
  ⟨rfl, by decide, rfl,
   create_username_conflict_rejected bcryptModel "t1" aliceStore aliceDup
     "alice" rfl (by decide) rfl⟩

end Uqifeed
